import Mathlib

/-!
Verification development for the flight-motion engine in
src/FlightMotionControl.ts (maplibre-gl-flight-simulator).

The TypeScript class is shallowly embedded over the rationals: JavaScript
numbers become exact rationals, the ECMAScript remainder operator becomes a
truncated-division remainder, Math.round becomes floor of x + 1/2, and the
composite Math.cos(lat * Math.PI / 180) is abstracted as an arbitrary
function cosDeg of the latitude in degrees.  Wall-clock reads
(performance.now() - this._lastUpdateTime) are passed in explicitly as the
deltaTime argument.  The map, the DOM container and the jumpTo render call
carry no engine state and are omitted; the scheduling of ticks is modeled by
applying the tick functions directly.
-/

namespace FlightSim

/-- Geographic position of a MotionState: latitude and longitude in degrees,
altitude in meters. -/
structure Position where
  lat : ℚ
  lng : ℚ
  altitude : ℚ
deriving DecidableEq

/-- Attitude of a MotionState: heading, pitch, roll in degrees. -/
structure Attitude where
  heading : ℚ
  pitch : ℚ
  roll : ℚ
deriving DecidableEq

/-- Velocity record of a MotionState: ground speed and vertical speed in
meters per second. -/
structure Velocity where
  groundSpeed : ℚ
  verticalSpeed : ℚ
deriving DecidableEq

/-- The MotionState interface of the source. -/
structure MotionState where
  position : Position
  attitude : Attitude
  velocity : Velocity
deriving DecidableEq

/-- The pre-calculated per-frame deltas of a MovementInterpolation. -/
structure Deltas where
  lat : ℚ
  lng : ℚ
  altitude : ℚ
  heading : ℚ
  pitch : ℚ
  roll : ℚ
  groundSpeed : ℚ
  verticalSpeed : ℚ
deriving DecidableEq

/-- The MovementInterpolation interface of the source. -/
structure MovementInterpolation where
  start : MotionState
  target : MotionState
  remainingFrames : ℤ
  deltas : Deltas
deriving DecidableEq

/-- The _velocity field of the control: linear velocity estimate, x east,
y north, z up, in meters per second. -/
structure Vec3 where
  x : ℚ
  y : ℚ
  z : ℚ
deriving DecidableEq

/-- The _angularVelocity field of the control, in degrees per second. -/
structure AngularVelocity where
  heading : ℚ
  pitch : ℚ
  roll : ℚ
deriving DecidableEq

/-- The sparse observation accepted by updateFlightState. -/
structure StateUpdate where
  lat : Option ℚ
  lng : Option ℚ
  elevation : Option ℚ
  flightHeading : Option ℚ
  groundSpeed : Option ℚ
  verticalSpeed : Option ℚ
  pitchAttitude : Option ℚ
  rollAttitude : Option ℚ
deriving DecidableEq

/-- The mutable fields of the FlightMotionControl class that the engine logic
reads and writes. -/
structure FlightMotionControl where
  currentState : Option MotionState
  previousState : Option MotionState
  currentInterpolation : Option MovementInterpolation
  predict : Bool
  shouldPredict : Bool
  deltaIsCalculated : Bool
  currentDeltaTimeForPrediction : ℚ
  velocity : Vec3
  angularVelocity : AngularVelocity
deriving DecidableEq

/-- A freshly constructed control with no initial position: the constructor
field initializers of the source. -/
def initialControl : FlightMotionControl :=
  { currentState := none
    previousState := none
    currentInterpolation := none
    predict := false
    shouldPredict := false
    deltaIsCalculated := false
    currentDeltaTimeForPrediction := 0
    velocity := { x := 0, y := 0, z := 0 }
    angularVelocity := { heading := 0, pitch := 0, roll := 0 } }

/-- The WGS-84 meters-per-degree constant 110574.3 used by the source. -/
def metersPerDegree : ℚ := 1105743 / 10

/-- Truncation toward zero, the rounding used by the ECMAScript remainder
operator (for negative arguments the ceiling, written as a negated floor). -/
def truncQ (q : ℚ) : ℤ := if 0 ≤ q then ⌊q⌋ else -⌊-q⌋

/-- The ECMAScript remainder x % 360 on exact rationals. -/
def jsMod360 (a : ℚ) : ℚ := a - 360 * (truncQ (a / 360) : ℚ)

/-- The normalization pattern ((x % 360) + 360) % 360 used by the source to
bring an angle into the interval from 0 inclusive to 360 exclusive. -/
def wrap360 (a : ℚ) : ℚ := jsMod360 (jsMod360 a + 360)

/-- Math.round: nearest integer, half rounded toward positive infinity. -/
def jsRound (q : ℚ) : ℤ := ⌊q + 1 / 2⌋

/-- Math.min on rationals. -/
def jsMin (a b : ℚ) : ℚ := if a ≤ b then a else b

/-- Source method _calculateShortestAngleDelta: normalize both angles into
the interval from 0 to 360, then fold the difference into -180 to 180. -/
def calculateShortestAngleDelta (start finish : ℚ) : ℚ :=
  let s := wrap360 start
  let f := wrap360 finish
  let d0 := f - s
  let d1 := if 180 < d0 then d0 - 360 else d0
  if d1 < -180 then d1 + 360 else d1

/-- Source method _calculateShortestLongitudeDelta: fold the raw difference
into -180 to 180 without pre-normalizing the inputs. -/
def calculateShortestLongitudeDelta (start finish : ℚ) : ℚ :=
  let d0 := finish - start
  let d1 := if 180 < d0 then d0 - 360 else d0
  if d1 < -180 then d1 + 360 else d1

/-- Source method _updateMotionDerivatives.  cosDeg stands for the composite
Math.cos(lat * Math.PI / 180) applied to a latitude in degrees.  Reads the
_previousState and _currentState fields and stores instantaneous velocity and
angular-velocity estimates; a missing previous or current state is a no-op. -/
def updateMotionDerivatives (cosDeg : ℚ → ℚ) (c : FlightMotionControl)
    (deltaTime : ℚ) : FlightMotionControl :=
  match c.previousState, c.currentState with
  | some prev, some curr =>
    let cosLat := cosDeg curr.position.lat
    let dx := (curr.position.lng - prev.position.lng) * cosLat * metersPerDegree
    let dy := (curr.position.lat - prev.position.lat) * metersPerDegree
    let dz := curr.position.altitude - prev.position.altitude
    let dHeading := calculateShortestAngleDelta prev.attitude.heading curr.attitude.heading
    let dPitch := curr.attitude.pitch - prev.attitude.pitch
    let dRoll := curr.attitude.roll - prev.attitude.roll
    { c with
      velocity := { x := dx / deltaTime, y := dy / deltaTime, z := dz / deltaTime }
      angularVelocity :=
        { heading := dHeading / deltaTime
          pitch := dPitch / deltaTime
          roll := dRoll / deltaTime } }
  | _, _ => c

/-- The target state built by updateFlightState on a call with a prior state:
every missing observation field is held at the current state's value. -/
def targetOf (cur : MotionState) (s : StateUpdate) : MotionState :=
  { position :=
      { lat := s.lat.getD cur.position.lat
        lng := s.lng.getD cur.position.lng
        altitude := s.elevation.getD cur.position.altitude }
    attitude :=
      { heading := s.flightHeading.getD cur.attitude.heading
        pitch := s.pitchAttitude.getD cur.attitude.pitch
        roll := s.rollAttitude.getD cur.attitude.roll }
    velocity :=
      { groundSpeed := s.groundSpeed.getD cur.velocity.groundSpeed
        verticalSpeed := s.verticalSpeed.getD cur.velocity.verticalSpeed } }

/-- The total frame count of updateFlightState:
Math.round((deltaTime / 1000) * FRAMES) with FRAMES = 20. -/
def framesOf (deltaTime : ℚ) : ℤ := jsRound (deltaTime / 1000 * 20)

/-- The pre-calculated per-frame deltas of updateFlightState: each total delta
divided by the frame count, with the shortest-path delta used for heading,
roll and longitude. -/
def deltasOf (cur target : MotionState) (frames : ℤ) : Deltas :=
  { lat := (target.position.lat - cur.position.lat) / (frames : ℚ)
    lng := calculateShortestLongitudeDelta cur.position.lng target.position.lng / (frames : ℚ)
    altitude := (target.position.altitude - cur.position.altitude) / (frames : ℚ)
    heading := calculateShortestAngleDelta cur.attitude.heading target.attitude.heading / (frames : ℚ)
    pitch := (target.attitude.pitch - cur.attitude.pitch) / (frames : ℚ)
    roll := calculateShortestAngleDelta cur.attitude.roll target.attitude.roll / (frames : ℚ)
    groundSpeed := (target.velocity.groundSpeed - cur.velocity.groundSpeed) / (frames : ℚ)
    verticalSpeed := (target.velocity.verticalSpeed - cur.velocity.verticalSpeed) / (frames : ℚ) }

/-- Source method updateFlightState.  deltaTime is the wall-clock reading
performance.now() - _lastUpdateTime in milliseconds; mapCamera is the map
camera position the source queries as a fallback on the first call.  Note the
source assigns _previousState from _currentState and, on a call with a prior
state, never reassigns _currentState: only the interpolation plan is built. -/
def updateFlightState (cosDeg : ℚ → ℚ) (mapCamera : Position)
    (c : FlightMotionControl) (s : StateUpdate) (deltaTime : ℚ) :
    FlightMotionControl :=
  match c.currentState with
  | none =>
    { c with
      previousState := none
      currentState := some
        { position :=
            { lat := s.lat.getD mapCamera.lat
              lng := s.lng.getD mapCamera.lng
              altitude := s.elevation.getD mapCamera.altitude }
          attitude :=
            { heading := s.flightHeading.getD 0
              pitch := s.pitchAttitude.getD 0
              roll := s.rollAttitude.getD 0 }
          velocity :=
            { groundSpeed := s.groundSpeed.getD 0
              verticalSpeed := s.verticalSpeed.getD 0 } } }
  | some cur =>
    let target := targetOf cur s
    let frames := framesOf deltaTime
    let c1 : FlightMotionControl :=
      { c with
        previousState := some cur
        currentInterpolation := some
          { start := cur
            target := target
            remainingFrames := frames
            deltas := deltasOf cur target frames } }
    if c1.shouldPredict then updateMotionDerivatives cosDeg c1 (deltaTime / 1000)
    else c1

/-- State evolution of the source method _interpolateFrame: a missing plan or
missing current state returns without doing anything (in particular without
reaching _updateCamera); a plan with no remaining frames snaps the current
state to the target and clears the plan; otherwise one frame's deltas are
added, heading and roll re-wrapped, and the frame counter decremented.  The
trailing _updateCamera call is modeled separately. -/
def interpolateFrame (c : FlightMotionControl) : FlightMotionControl :=
  match c.currentInterpolation, c.currentState with
  | some itp, some cur =>
    if itp.remainingFrames ≤ 0 then
      { c with currentState := some itp.target, currentInterpolation := none }
    else
      { c with
        currentState := some
          { position :=
              { lat := cur.position.lat + itp.deltas.lat
                lng := cur.position.lng + itp.deltas.lng
                altitude := cur.position.altitude + itp.deltas.altitude }
            attitude :=
              { heading := jsMod360 (cur.attitude.heading + itp.deltas.heading + 360)
                pitch := cur.attitude.pitch + itp.deltas.pitch
                roll := jsMod360 (cur.attitude.roll + itp.deltas.roll + 360) }
            velocity :=
              { groundSpeed := cur.velocity.groundSpeed + itp.deltas.groundSpeed
                verticalSpeed := cur.velocity.verticalSpeed + itp.deltas.verticalSpeed } }
        currentInterpolation := some
          { start := itp.start
            target := itp.target
            remainingFrames := itp.remainingFrames - 1
            deltas := itp.deltas } }
  | _, _ => c

/-- Source method _predictCurrentState: dead-reckon the given current state
forward by deltaTime using the stored velocity estimates.  Heading is wrapped
by the ((x + 360) % 360) pattern; roll and pitch are not. -/
def predictCurrentState (cosDeg : ℚ → ℚ) (v : Vec3) (av : AngularVelocity)
    (state : MotionState) (deltaTime : ℚ) : MotionState :=
  let latChange := v.y * deltaTime / metersPerDegree
  let lngChange := v.x * deltaTime / (metersPerDegree * cosDeg state.position.lat)
  let altChange := v.z * deltaTime
  let headingChange := av.heading * deltaTime
  let pitchChange := av.pitch * deltaTime
  let rollChange := av.roll * deltaTime
  { position :=
      { lat := state.position.lat + latChange
        lng := state.position.lng + lngChange
        altitude := state.position.altitude + altChange }
    attitude :=
      { heading := jsMod360 (state.attitude.heading + headingChange + 360)
        pitch := state.attitude.pitch + pitchChange
        roll := state.attitude.roll + rollChange }
    velocity :=
      { groundSpeed := state.velocity.groundSpeed
        verticalSpeed := state.velocity.verticalSpeed } }

/-- The field mutations one pass of the source method _updateCamera performs
before it reaches its tail: on the first predicted render it caches the
prediction delta time and sets _deltaIsCalculated. -/
def updateCameraStep (nowMinusLast : ℚ) (c : FlightMotionControl) :
    FlightMotionControl :=
  if c.predict && c.previousState.isSome then
    if c.deltaIsCalculated then c
    else { c with
           currentDeltaTimeForPrediction := nowMinusLast
           deltaIsCalculated := true }
  else c

/-- Fuel-bounded model of the source method _updateCamera: after the
prediction bookkeeping of updateCameraStep, a missing current state makes
_calculateCameraPosition return null and the method returns early; otherwise
the camera is placed and the method ends by calling itself again whenever the
predict flag is set.  The result is the control state when the call
completes, or none when it does not complete within the given recursion
budget. -/
def updateCamera (nowMinusLast : ℚ) : ℕ → FlightMotionControl →
    Option FlightMotionControl
  | 0, _ => none
  | fuel + 1, c =>
    if (updateCameraStep nowMinusLast c).currentState.isNone then
      some (updateCameraStep nowMinusLast c)
    else if (updateCameraStep nowMinusLast c).predict then
      updateCamera nowMinusLast fuel (updateCameraStep nowMinusLast c)
    else some (updateCameraStep nowMinusLast c)

/-- The motion state one scheduled tick hands to camera placement, or none
when the tick renders nothing: _updateFrame calls _interpolateFrame, which
returns before reaching _updateCamera unless both a plan and a current state
exist; _updateCamera then uses the predicted state when the predict flag is
set and a previous state exists, and the freshly interpolated current state
otherwise. -/
def tickRenderedState (cosDeg : ℚ → ℚ) (nowMinusLast : ℚ)
    (c : FlightMotionControl) : Option MotionState :=
  match c.currentInterpolation, c.currentState with
  | some _, some _ =>
    let c1 := interpolateFrame c
    if c1.predict && c1.previousState.isSome then
      let dt := if c1.deltaIsCalculated then c1.currentDeltaTimeForPrediction
                else nowMinusLast
      c1.currentState.map (fun st =>
        predictCurrentState cosDeg c1.velocity c1.angularVelocity st dt)
    else c1.currentState
  | _, _ => none

/-- Source method _calculateChaseOffset: scale the base offset by the speed
factor min(groundSpeed / 100, 1); the constants 0.5 and 0.3 of the source are
the rationals 1/2 and 3/10. -/
def calculateChaseOffset (c : FlightMotionControl) (baseOffset : Vec3) : Vec3 :=
  match c.currentState with
  | none => baseOffset
  | some cur =>
    let speedFactor := jsMin (cur.velocity.groundSpeed / 100) 1
    { x := baseOffset.x
      y := baseOffset.y * (1 + speedFactor * (1 / 2))
      z := baseOffset.z * (1 + speedFactor * (3 / 10)) }

namespace RefModel

/-!
Reference-level model of the source method getState.  The spread expression
of the source copies the three top-level fields of the current MotionState
object; those fields are references into the JS heap, so the nested records
are shared between the returned object and the engine's own state.  A
MotionState object is modeled as three heap addresses, the heap as three
address-indexed stores of the value records defined above.
-/

/-- A MotionState object on the JS heap: references to its three nested
records. -/
structure MotionStateRef where
  position : ℕ
  attitude : ℕ
  velocity : ℕ
deriving DecidableEq

/-- The JS heap: what each address of each nested-record kind holds. -/
structure Heap where
  positions : ℕ → Position
  attitudes : ℕ → Attitude
  velocities : ℕ → Velocity

/-- Source method getState: null when no current state exists, otherwise the
object produced by the spread operator, whose three fields are the same
references held by the engine's current state. -/
def getState (currentState : Option MotionStateRef) : Option MotionStateRef :=
  match currentState with
  | some r => some { position := r.position, attitude := r.attitude, velocity := r.velocity }
  | none => none

/-- Heap mutation: the assignment returned.position.lat = v performed by a
caller on the object returned from getState. -/
def writeLat (h : Heap) (addr : ℕ) (v : ℚ) : Heap :=
  { h with
    positions := fun n => if n = addr then { h.positions addr with lat := v }
                          else h.positions n }

/-- The latitude of a MotionState object as read through its own position
reference. -/
def readLat (h : Heap) (r : MotionStateRef) : ℚ := (h.positions r.position).lat

/-- A concrete heap: every position record holds lat 10, lng 20, alt 1000. -/
def heap0 : Heap :=
  { positions := fun _ => { lat := 10, lng := 20, altitude := 1000 }
    attitudes := fun _ => { heading := 0, pitch := 0, roll := 0 }
    velocities := fun _ => { groundSpeed := 0, verticalSpeed := 0 } }

/-- The engine's current-state object, living at addresses 0, 1, 2. -/
def internalRef : MotionStateRef := { position := 0, attitude := 1, velocity := 2 }

end RefModel

/-! Concrete inputs used by the counterexamples and witnesses. -/

/-- A concrete stand-in for the abstracted cosine function. -/
def cos1 : ℚ → ℚ := fun _ => 1

/-- A concrete map camera fallback position. -/
def mapCam0 : Position := { lat := 0, lng := 0, altitude := 0 }

/-- A motion state at the origin at 1000 m with level attitude and zero
speeds. -/
def ms0 : MotionState :=
  { position := { lat := 0, lng := 0, altitude := 1000 }
    attitude := { heading := 0, pitch := 0, roll := 0 }
    velocity := { groundSpeed := 0, verticalSpeed := 0 } }

/-- A control whose current state is the given motion state, all other fields
as freshly constructed. -/
def stateControl (st : MotionState) : FlightMotionControl :=
  { initialControl with currentState := some st }

/-- A fully-specified observation: every field present. -/
def fullObs (la ln el hd gs vs pa ra : ℚ) : StateUpdate :=
  { lat := some la, lng := some ln, elevation := some el, flightHeading := some hd
    groundSpeed := some gs, verticalSpeed := some vs, pitchAttitude := some pa
    rollAttitude := some ra }

/-- An observation carrying only lat and lng. -/
def latLngObs (la ln : ℚ) : StateUpdate :=
  { lat := some la, lng := some ln, elevation := none, flightHeading := none
    groundSpeed := none, verticalSpeed := none, pitchAttitude := none
    rollAttitude := none }

/-- An observation carrying only lat. -/
def latObs (la : ℚ) : StateUpdate :=
  { lat := some la, lng := none, elevation := none, flightHeading := none
    groundSpeed := none, verticalSpeed := none, pitchAttitude := none
    rollAttitude := none }

/-- A control with prediction-derivation enabled and a current state. -/
def c2control : FlightMotionControl :=
  { initialControl with currentState := some ms0, shouldPredict := true }

/-- A control on which startPrediction() has been called, holding a current
state. -/
def c3control : FlightMotionControl :=
  { initialControl with predict := true, currentState := some ms0 }

/-- A control whose current state has heading 90 at the origin. -/
def c4control : FlightMotionControl :=
  stateControl
    { position := { lat := 0, lng := 0, altitude := 1000 }
      attitude := { heading := 90, pitch := 0, roll := 0 }
      velocity := { groundSpeed := 0, verticalSpeed := 0 } }

/-- A control whose current state sits just west of the antimeridian. -/
def antiControl : FlightMotionControl :=
  stateControl
    { position := { lat := 0, lng := 179, altitude := 1000 }
      attitude := { heading := 0, pitch := 0, roll := 0 }
      velocity := { groundSpeed := 0, verticalSpeed := 0 } }

/-- A predicting control with current and previous states but no live plan. -/
def c7control : FlightMotionControl :=
  { initialControl with
    currentState := some ms0, previousState := some ms0, predict := true }

/-- A trivial one-frame interpolation plan from ms0 to itself. -/
def plan0 : MovementInterpolation :=
  { start := ms0, target := ms0, remainingFrames := 1
    deltas := { lat := 0, lng := 0, altitude := 0, heading := 0, pitch := 0
                roll := 0, groundSpeed := 0, verticalSpeed := 0 } }

/-- The predicting control of c7control with a live plan. -/
def c7planControl : FlightMotionControl :=
  { c7control with currentInterpolation := some plan0 }

/-- A motion state at the origin with the given ground speed. -/
def msSpeed (gs : ℚ) : MotionState :=
  { ms0 with velocity := { groundSpeed := gs, verticalSpeed := 0 } }

/-- The interpolation plan built by updating the ms0 control with a small
northward observation 50 ms after the previous update. -/
def itpW : MovementInterpolation :=
  { start := ms0
    target := targetOf ms0 (latObs (1 / 1000))
    remainingFrames := framesOf 50
    deltas := deltasOf ms0 (targetOf ms0 (latObs (1 / 1000))) (framesOf 50) }

/-! Arithmetic facts about the ECMAScript remainder and the wrap pattern. -/

theorem jsMod360_nonneg_mem (a : ℚ) (h : 0 ≤ a) :
    0 ≤ jsMod360 a ∧ jsMod360 a < 360 := by
  have hq : (0 : ℚ) ≤ a / 360 := by positivity
  have hfl : ((⌊a / 360⌋ : ℤ) : ℚ) ≤ a / 360 := Int.floor_le _
  have hfu : a / 360 < ⌊a / 360⌋ + 1 := Int.lt_floor_add_one _
  have hl : ((⌊a / 360⌋ : ℤ) : ℚ) * 360 ≤ a :=
    (le_div_iff (by norm_num : (0 : ℚ) < 360)).1 hfl
  have hu : a < (((⌊a / 360⌋ : ℤ) : ℚ) + 1) * 360 :=
    (div_lt_iff (by norm_num : (0 : ℚ) < 360)).1 hfu
  rw [jsMod360, truncQ, if_pos hq]
  constructor <;> nlinarith

theorem jsMod360_neg_mem (a : ℚ) (h : a < 0) :
    -360 < jsMod360 a ∧ jsMod360 a ≤ 0 := by
  have hq : ¬ (0 : ℚ) ≤ a / 360 := by
    rw [not_le]
    exact div_neg_of_neg_of_pos h (by norm_num)
  have hfl : ((⌊-(a / 360)⌋ : ℤ) : ℚ) ≤ -(a / 360) := Int.floor_le _
  have hfu : -(a / 360) < ⌊-(a / 360)⌋ + 1 := Int.lt_floor_add_one _
  have hfl2 : ((⌊-(a / 360)⌋ : ℤ) : ℚ) ≤ -a / 360 := by
    rw [neg_div]
    exact hfl
  have hfu2 : -a / 360 < ((⌊-(a / 360)⌋ : ℤ) : ℚ) + 1 := by
    rw [neg_div]
    exact hfu
  have hklq : ((⌊-(a / 360)⌋ : ℤ) : ℚ) * 360 ≤ -a :=
    (le_div_iff (by norm_num : (0 : ℚ) < 360)).1 hfl2
  have hkuq : -a < (((⌊-(a / 360)⌋ : ℤ) : ℚ) + 1) * 360 :=
    (div_lt_iff (by norm_num : (0 : ℚ) < 360)).1 hfu2
  rw [jsMod360, truncQ, if_neg hq]
  push_cast
  constructor <;> nlinarith

theorem jsMod360_mem (a : ℚ) : -360 < jsMod360 a ∧ jsMod360 a < 360 := by
  rcases le_or_lt 0 a with h | h
  · have hm := jsMod360_nonneg_mem a h
    exact ⟨by linarith [hm.1], hm.2⟩
  · have hm := jsMod360_neg_mem a h
    exact ⟨hm.1, by linarith [hm.2]⟩

theorem jsMod360_congr (a : ℚ) : ∃ k : ℤ, a - jsMod360 a = 360 * (k : ℚ) :=
  ⟨truncQ (a / 360), by rw [jsMod360]; ring⟩

theorem wrap360_mem (a : ℚ) : 0 ≤ wrap360 a ∧ wrap360 a < 360 := by
  have hm := jsMod360_mem a
  rw [wrap360]
  exact jsMod360_nonneg_mem _ (by linarith [hm.1])

theorem wrap360_congr (a : ℚ) : ∃ k : ℤ, a - wrap360 a = 360 * (k : ℚ) := by
  obtain ⟨k1, hk1⟩ := jsMod360_congr a
  obtain ⟨k2, hk2⟩ := jsMod360_congr (jsMod360 a + 360)
  exact ⟨k1 + k2 - 1, by rw [wrap360]; push_cast; linarith⟩

theorem wrap360_eq_of_congr (a b : ℚ) (h : ∃ k : ℤ, a - b = 360 * (k : ℚ)) :
    wrap360 a = wrap360 b := by
  obtain ⟨k, hk⟩ := h
  obtain ⟨j1, hj1⟩ := wrap360_congr a
  obtain ⟨j2, hj2⟩ := wrap360_congr b
  have h1 := wrap360_mem a
  have h2 := wrap360_mem b
  have hm : wrap360 a - wrap360 b = 360 * ((k - j1 + j2 : ℤ) : ℚ) := by
    push_cast
    linarith
  have hlt : ((k - j1 + j2 : ℤ) : ℚ) < 1 := by linarith [h1.2, h2.1]
  have hgt : (-1 : ℚ) < ((k - j1 + j2 : ℤ) : ℚ) := by linarith [h1.1, h2.2]
  have hz : (k - j1 + j2 : ℤ) = 0 := by
    have l1 : (k - j1 + j2 : ℤ) < 1 := by exact_mod_cast hlt
    have l2 : (-1 : ℤ) < (k - j1 + j2 : ℤ) := by exact_mod_cast hgt
    omega
  rw [hz] at hm
  push_cast at hm
  linarith

/-! Facts about the two shortest-delta functions. -/

theorem calculateShortestAngleDelta_mem (a b : ℚ) :
    -180 ≤ calculateShortestAngleDelta a b ∧
      calculateShortestAngleDelta a b ≤ 180 := by
  have ha := wrap360_mem a
  have hb := wrap360_mem b
  simp only [calculateShortestAngleDelta]
  split_ifs <;> constructor <;> linarith

theorem calculateShortestAngleDelta_congr (a b : ℚ) :
    ∃ k : ℤ, calculateShortestAngleDelta a b = b - a + 360 * (k : ℚ) := by
  obtain ⟨ja, hja⟩ := wrap360_congr a
  obtain ⟨jb, hjb⟩ := wrap360_congr b
  simp only [calculateShortestAngleDelta]
  split_ifs
  · exact ⟨ja - jb, by push_cast; linarith⟩
  · exact ⟨ja - jb - 1, by push_cast; linarith⟩
  · exact ⟨ja - jb + 1, by push_cast; linarith⟩
  · exact ⟨ja - jb, by push_cast; linarith⟩

theorem calculateShortestAngleDelta_self (a : ℚ) :
    calculateShortestAngleDelta a a = 0 := by
  norm_num [calculateShortestAngleDelta]

theorem calculateShortestLongitudeDelta_congr (a b : ℚ) :
    ∃ k : ℤ, calculateShortestLongitudeDelta a b = b - a + 360 * (k : ℚ) := by
  simp only [calculateShortestLongitudeDelta]
  split_ifs
  · exact ⟨0, by push_cast; ring⟩
  · exact ⟨-1, by push_cast; ring⟩
  · exact ⟨1, by push_cast; ring⟩
  · exact ⟨0, by push_cast; ring⟩

/-! Structural facts about the engine operations. -/

theorem updateMotionDerivatives_currentState (cosDeg : ℚ → ℚ)
    (c : FlightMotionControl) (dt : ℚ) :
    (updateMotionDerivatives cosDeg c dt).currentState = c.currentState := by
  unfold updateMotionDerivatives
  split <;> rfl

theorem updateMotionDerivatives_currentInterpolation (cosDeg : ℚ → ℚ)
    (c : FlightMotionControl) (dt : ℚ) :
    (updateMotionDerivatives cosDeg c dt).currentInterpolation =
      c.currentInterpolation := by
  unfold updateMotionDerivatives
  split <;> rfl

theorem updateMotionDerivatives_previousState (cosDeg : ℚ → ℚ)
    (c : FlightMotionControl) (dt : ℚ) :
    (updateMotionDerivatives cosDeg c dt).previousState = c.previousState := by
  unfold updateMotionDerivatives
  split <;> rfl

theorem updateFlightState_some (cosDeg : ℚ → ℚ) (mapCamera : Position)
    (c : FlightMotionControl) (s : StateUpdate) (dt : ℚ) (cur : MotionState)
    (hcur : c.currentState = some cur) :
    (updateFlightState cosDeg mapCamera c s dt).currentState = some cur ∧
    (updateFlightState cosDeg mapCamera c s dt).currentInterpolation =
      some { start := cur, target := targetOf cur s, remainingFrames := framesOf dt
             deltas := deltasOf cur (targetOf cur s) (framesOf dt) } ∧
    (updateFlightState cosDeg mapCamera c s dt).previousState = some cur := by
  simp only [updateFlightState, hcur]
  split_ifs with h
  · rw [updateMotionDerivatives_currentState, updateMotionDerivatives_currentInterpolation,
      updateMotionDerivatives_previousState]
    exact ⟨rfl, rfl, rfl⟩
  · exact ⟨rfl, rfl, rfl⟩

theorem interpolateFrame_preserves (c : FlightMotionControl) :
    (interpolateFrame c).predict = c.predict ∧
    (interpolateFrame c).previousState = c.previousState ∧
    (interpolateFrame c).velocity = c.velocity ∧
    (interpolateFrame c).angularVelocity = c.angularVelocity ∧
    (interpolateFrame c).deltaIsCalculated = c.deltaIsCalculated ∧
    (interpolateFrame c).currentDeltaTimeForPrediction =
      c.currentDeltaTimeForPrediction ∧
    (interpolateFrame c).shouldPredict = c.shouldPredict := by
  unfold interpolateFrame
  split
  · split_ifs <;> exact ⟨rfl, rfl, rfl, rfl, rfl, rfl, rfl⟩
  · exact ⟨rfl, rfl, rfl, rfl, rfl, rfl, rfl⟩

theorem interpolateFrame_snap (c : FlightMotionControl)
    (itp : MovementInterpolation) (cur : MotionState)
    (hplan : c.currentInterpolation = some itp)
    (hcur : c.currentState = some cur) (hz : itp.remainingFrames ≤ 0) :
    (interpolateFrame c).currentState = some itp.target ∧
    (interpolateFrame c).currentInterpolation = none := by
  simp only [interpolateFrame, hplan, hcur]
  rw [if_pos hz]
  exact ⟨rfl, rfl⟩

theorem interpolateFrame_step (c : FlightMotionControl)
    (itp : MovementInterpolation) (cur : MotionState)
    (hplan : c.currentInterpolation = some itp)
    (hcur : c.currentState = some cur) (hpos : 0 < itp.remainingFrames) :
    (interpolateFrame c).currentState = some
      { position :=
          { lat := cur.position.lat + itp.deltas.lat
            lng := cur.position.lng + itp.deltas.lng
            altitude := cur.position.altitude + itp.deltas.altitude }
        attitude :=
          { heading := jsMod360 (cur.attitude.heading + itp.deltas.heading + 360)
            pitch := cur.attitude.pitch + itp.deltas.pitch
            roll := jsMod360 (cur.attitude.roll + itp.deltas.roll + 360) }
        velocity :=
          { groundSpeed := cur.velocity.groundSpeed + itp.deltas.groundSpeed
            verticalSpeed := cur.velocity.verticalSpeed + itp.deltas.verticalSpeed } } ∧
    (interpolateFrame c).currentInterpolation = some
      { start := itp.start, target := itp.target
        remainingFrames := itp.remainingFrames - 1, deltas := itp.deltas } := by
  simp only [interpolateFrame, hplan, hcur]
  rw [if_neg (by omega : ¬ itp.remainingFrames ≤ 0)]
  exact ⟨rfl, rfl⟩

theorem interpolateFrame_iterate (itp : MovementInterpolation) (cur : MotionState)
    (c : FlightMotionControl) (hplan : c.currentInterpolation = some itp)
    (hcur : c.currentState = some cur) :
    ∀ k : ℕ, (k : ℤ) ≤ itp.remainingFrames →
    (∃ itpK, (interpolateFrame^[k] c).currentInterpolation = some itpK ∧
      itpK.start = itp.start ∧ itpK.target = itp.target ∧
      itpK.remainingFrames = itp.remainingFrames - (k : ℤ) ∧
      itpK.deltas = itp.deltas) ∧
    ∃ st, (interpolateFrame^[k] c).currentState = some st ∧
      st.position.lat = cur.position.lat + (k : ℚ) * itp.deltas.lat ∧
      st.position.lng = cur.position.lng + (k : ℚ) * itp.deltas.lng ∧
      st.position.altitude = cur.position.altitude + (k : ℚ) * itp.deltas.altitude ∧
      (∃ j : ℤ, st.attitude.heading =
        cur.attitude.heading + (k : ℚ) * itp.deltas.heading + 360 * (j : ℚ)) ∧
      st.attitude.pitch = cur.attitude.pitch + (k : ℚ) * itp.deltas.pitch ∧
      (∃ j : ℤ, st.attitude.roll =
        cur.attitude.roll + (k : ℚ) * itp.deltas.roll + 360 * (j : ℚ)) ∧
      st.velocity.groundSpeed =
        cur.velocity.groundSpeed + (k : ℚ) * itp.deltas.groundSpeed ∧
      st.velocity.verticalSpeed =
        cur.velocity.verticalSpeed + (k : ℚ) * itp.deltas.verticalSpeed := by
  intro k
  induction k with
  | zero =>
    intro _
    constructor
    · exact ⟨itp, by simpa using hplan, rfl, rfl, by simp, rfl⟩
    · exact ⟨cur, by simpa using hcur, by simp, by simp, by simp,
        ⟨0, by simp⟩, by simp, ⟨0, by simp⟩, by simp, by simp⟩
  | succ n ih =>
    intro hk
    have hk1 : (n : ℤ) ≤ itp.remainingFrames := by push_cast at hk ⊢; omega
    obtain ⟨⟨itpN, hplanN, hsN, htN, hremN, hdN⟩, st, hstN, hlat, hlng, halt,
      ⟨jh, hh⟩, hpitch, ⟨jr, hr⟩, hgs, hvs⟩ := ih hk1
    have hpos : 0 < itpN.remainingFrames := by
      rw [hremN]
      push_cast at hk
      omega
    rw [Function.iterate_succ_apply']
    obtain ⟨hstS, hplanS⟩ := interpolateFrame_step _ itpN st hplanN hstN hpos
    constructor
    · refine ⟨_, hplanS, ?_, ?_, ?_, ?_⟩
      · exact hsN
      · exact htN
      · show itpN.remainingFrames - 1 = itp.remainingFrames - ((n + 1 : ℕ) : ℤ)
        rw [hremN]
        push_cast
        ring
      · exact hdN
    · refine ⟨_, hstS, ?_, ?_, ?_, ?_, ?_, ?_, ?_, ?_⟩
      · show st.position.lat + itpN.deltas.lat =
          cur.position.lat + ((n + 1 : ℕ) : ℚ) * itp.deltas.lat
        rw [hdN, hlat]
        push_cast
        ring
      · show st.position.lng + itpN.deltas.lng =
          cur.position.lng + ((n + 1 : ℕ) : ℚ) * itp.deltas.lng
        rw [hdN, hlng]
        push_cast
        ring
      · show st.position.altitude + itpN.deltas.altitude =
          cur.position.altitude + ((n + 1 : ℕ) : ℚ) * itp.deltas.altitude
        rw [hdN, halt]
        push_cast
        ring
      · obtain ⟨t, ht⟩ := jsMod360_congr
          (st.attitude.heading + itpN.deltas.heading + 360)
        refine ⟨jh + 1 - t, ?_⟩
        show jsMod360 (st.attitude.heading + itpN.deltas.heading + 360) =
          cur.attitude.heading + ((n + 1 : ℕ) : ℚ) * itp.deltas.heading +
            360 * ((jh + 1 - t : ℤ) : ℚ)
        rw [hdN] at ht ⊢
        push_cast at ht ⊢
        linarith
      · show st.attitude.pitch + itpN.deltas.pitch =
          cur.attitude.pitch + ((n + 1 : ℕ) : ℚ) * itp.deltas.pitch
        rw [hdN, hpitch]
        push_cast
        ring
      · obtain ⟨t, ht⟩ := jsMod360_congr
          (st.attitude.roll + itpN.deltas.roll + 360)
        refine ⟨jr + 1 - t, ?_⟩
        show jsMod360 (st.attitude.roll + itpN.deltas.roll + 360) =
          cur.attitude.roll + ((n + 1 : ℕ) : ℚ) * itp.deltas.roll +
            360 * ((jr + 1 - t : ℤ) : ℚ)
        rw [hdN] at ht ⊢
        push_cast at ht ⊢
        linarith
      · show st.velocity.groundSpeed + itpN.deltas.groundSpeed =
          cur.velocity.groundSpeed + ((n + 1 : ℕ) : ℚ) * itp.deltas.groundSpeed
        rw [hdN, hgs]
        push_cast
        ring
      · show st.velocity.verticalSpeed + itpN.deltas.verticalSpeed =
          cur.velocity.verticalSpeed + ((n + 1 : ℕ) : ℚ) * itp.deltas.verticalSpeed
        rw [hdN, hvs]
        push_cast
        ring

/-- Claim C5 (amended): for a plan built by an accepted update with a prior
state and a positive frame count, consuming exactly remainingFrames ticks
brings every linearly interpolated component (lat, altitude, pitch, ground
speed, vertical speed) exactly to the plan's target; heading and roll agree
with the target after normalization by the source's wrap pattern; longitude
agrees with the target only modulo 360 (an antimeridian-crossing plan
overshoots the numeric range); and one further tick, arriving with
remainingFrames 0, snaps the state exactly to the target and clears the
plan. -/
theorem interpolation_settles (cosDeg : ℚ → ℚ) (mapCamera : Position)
    (c : FlightMotionControl) (s : StateUpdate) (dt : ℚ) (cur : MotionState)
    (itp : MovementInterpolation) (hcur : c.currentState = some cur)
    (hitp : (updateFlightState cosDeg mapCamera c s dt).currentInterpolation =
      some itp)
    (hn : 1 ≤ itp.remainingFrames) :
    ∃ st,
      (interpolateFrame^[itp.remainingFrames.toNat]
          (updateFlightState cosDeg mapCamera c s dt)).currentState = some st ∧
      st.position.lat = itp.target.position.lat ∧
      (∃ m : ℤ, st.position.lng = itp.target.position.lng + 360 * (m : ℚ)) ∧
      st.position.altitude = itp.target.position.altitude ∧
      wrap360 st.attitude.heading = wrap360 itp.target.attitude.heading ∧
      st.attitude.pitch = itp.target.attitude.pitch ∧
      wrap360 st.attitude.roll = wrap360 itp.target.attitude.roll ∧
      st.velocity.groundSpeed = itp.target.velocity.groundSpeed ∧
      st.velocity.verticalSpeed = itp.target.velocity.verticalSpeed ∧
      (interpolateFrame (interpolateFrame^[itp.remainingFrames.toNat]
          (updateFlightState cosDeg mapCamera c s dt))).currentState =
        some itp.target ∧
      (interpolateFrame (interpolateFrame^[itp.remainingFrames.toNat]
          (updateFlightState cosDeg mapCamera c s dt))).currentInterpolation =
        none := by
  obtain ⟨hcs, hplan, -⟩ := updateFlightState_some cosDeg mapCamera c s dt cur hcur
  have hitp2 : itp =
      { start := cur, target := targetOf cur s, remainingFrames := framesOf dt
        deltas := deltasOf cur (targetOf cur s) (framesOf dt) } :=
    (Option.some.inj (hplan.symm.trans hitp)).symm
  have htgt : itp.target = targetOf cur s := by rw [hitp2]
  have hrem : itp.remainingFrames = framesOf dt := by rw [hitp2]
  have hdel : itp.deltas = deltasOf cur (targetOf cur s) (framesOf dt) := by
    rw [hitp2]
  have hkZ : (itp.remainingFrames.toNat : ℤ) = itp.remainingFrames :=
    Int.toNat_of_nonneg (by omega)
  obtain ⟨⟨itpK, hplanK, hsK, htK, hremK, hdK⟩, st, hstK, hlat, hlng, halt,
      ⟨jh, hh⟩, hpitch, ⟨jr, hr⟩, hgs, hvs⟩ :=
    interpolateFrame_iterate itp cur _ hitp hcs itp.remainingFrames.toNat
      (le_of_eq hkZ)
  have hFne : ((framesOf dt : ℤ) : ℚ) ≠ 0 := by
    rw [← hrem]
    have hz : itp.remainingFrames ≠ 0 := by omega
    exact_mod_cast hz
  have hkq : ((itp.remainingFrames.toNat : ℕ) : ℚ) = ((framesOf dt : ℤ) : ℚ) := by
    rw [← hrem]
    exact_mod_cast hkZ
  have cancel : ∀ x : ℚ, ((framesOf dt : ℤ) : ℚ) * (x / ((framesOf dt : ℤ) : ℚ)) = x :=
    fun x => by field_simp
  have hdlat : itp.deltas.lat =
      ((targetOf cur s).position.lat - cur.position.lat) / ((framesOf dt : ℤ) : ℚ) := by
    simp [hdel, deltasOf]
  have hdlng : itp.deltas.lng =
      calculateShortestLongitudeDelta cur.position.lng
        (targetOf cur s).position.lng / ((framesOf dt : ℤ) : ℚ) := by
    simp [hdel, deltasOf]
  have hdalt : itp.deltas.altitude =
      ((targetOf cur s).position.altitude - cur.position.altitude) /
        ((framesOf dt : ℤ) : ℚ) := by
    simp [hdel, deltasOf]
  have hdh : itp.deltas.heading =
      calculateShortestAngleDelta cur.attitude.heading
        (targetOf cur s).attitude.heading / ((framesOf dt : ℤ) : ℚ) := by
    simp [hdel, deltasOf]
  have hdp : itp.deltas.pitch =
      ((targetOf cur s).attitude.pitch - cur.attitude.pitch) /
        ((framesOf dt : ℤ) : ℚ) := by
    simp [hdel, deltasOf]
  have hdr : itp.deltas.roll =
      calculateShortestAngleDelta cur.attitude.roll
        (targetOf cur s).attitude.roll / ((framesOf dt : ℤ) : ℚ) := by
    simp [hdel, deltasOf]
  have hdgs : itp.deltas.groundSpeed =
      ((targetOf cur s).velocity.groundSpeed - cur.velocity.groundSpeed) /
        ((framesOf dt : ℤ) : ℚ) := by
    simp [hdel, deltasOf]
  have hdvs : itp.deltas.verticalSpeed =
      ((targetOf cur s).velocity.verticalSpeed - cur.velocity.verticalSpeed) /
        ((framesOf dt : ℤ) : ℚ) := by
    simp [hdel, deltasOf]
  have hz : itpK.remainingFrames ≤ 0 := by
    rw [hremK, hkZ]
    omega
  obtain ⟨hsnapS, hsnapP⟩ := interpolateFrame_snap _ itpK st hplanK hstK hz
  refine ⟨st, hstK, ?_, ?_, ?_, ?_, ?_, ?_, ?_, ?_, ?_, ?_⟩
  · rw [hlat, hdlat, htgt, hkq, cancel]
    ring
  · obtain ⟨m, hm⟩ := calculateShortestLongitudeDelta_congr cur.position.lng
      (targetOf cur s).position.lng
    refine ⟨m, ?_⟩
    rw [hlng, hdlng, hm, htgt, hkq, cancel]
    ring
  · rw [halt, hdalt, htgt, hkq, cancel]
    ring
  · obtain ⟨m, hm⟩ := calculateShortestAngleDelta_congr cur.attitude.heading
      (targetOf cur s).attitude.heading
    refine wrap360_eq_of_congr _ _ ⟨m + jh, ?_⟩
    rw [htgt, hh, hdh, hm, hkq, cancel]
    push_cast
    ring
  · rw [hpitch, hdp, htgt, hkq, cancel]
    ring
  · obtain ⟨m, hm⟩ := calculateShortestAngleDelta_congr cur.attitude.roll
      (targetOf cur s).attitude.roll
    refine wrap360_eq_of_congr _ _ ⟨m + jr, ?_⟩
    rw [htgt, hr, hdr, hm, hkq, cancel]
    push_cast
    ring
  · rw [hgs, hdgs, htgt, hkq, cancel]
    ring
  · rw [hvs, hdvs, htgt, hkq, cancel]
    ring
  · rw [← htK]
    exact hsnapS
  · exact hsnapP

/-- Claim C9 (confirmed): for all headings h1 h2, the shortest-angle delta
lies in the closed interval from -180 to 180, and adding it to h1 and
normalizing into the interval from 0 to 360 by the source's own wrap pattern
agrees with normalizing h2 — the returned value is the minimal signed
rotation from h1 to h2. -/
theorem shortestAngleDelta_spec (h1 h2 : ℚ) :
    (-180 ≤ calculateShortestAngleDelta h1 h2 ∧
      calculateShortestAngleDelta h1 h2 ≤ 180) ∧
    wrap360 (h1 + calculateShortestAngleDelta h1 h2) = wrap360 h2 := by
  refine ⟨calculateShortestAngleDelta_mem h1 h2, wrap360_eq_of_congr _ _ ?_⟩
  obtain ⟨k, hk⟩ := calculateShortestAngleDelta_congr h1 h2
  exact ⟨k, by rw [hk]; ring⟩

/-- Claim C1 (counterexample): calling updateFlightState with a
fully-specified observation twice in a row, the second call at deltaTime 0,
accepts the update and builds a plan whose frame count is 0, not a configured
minimum of at least 1 — the per-frame delta computation divides by this zero
frame count. -/
theorem frame_floor_counterexample :
    ((updateFlightState cos1 mapCam0
        (updateFlightState cos1 mapCam0 initialControl
          (fullObs 0 0 1000 90 50 0 0 0) 1000)
        (fullObs (1 / 1000) 0 1000 90 50 0 0 0) 0).currentInterpolation.map
      (fun i => i.remainingFrames)) = some 0 ∧ ¬ (1 : ℤ) ≤ (0 : ℤ) := by
  constructor
  · norm_num [updateFlightState, targetOf, framesOf, deltasOf, jsRound, fullObs,
      initialControl, cos1, mapCam0, updateMotionDerivatives]
  · norm_num

/-- Claim C1 (amended): the frame count of a zero-deltaTime update is 0 — no
minimum floor is applied and the per-frame deltas are divided by zero — but
the update itself is a total function (it does not throw), and the next tick
finds remainingFrames 0, snaps the current state exactly to the plan's
target and clears the plan, so the ill-defined deltas are never added to the
state. -/
theorem zero_dt_update_snaps (cosDeg : ℚ → ℚ) (mapCamera : Position)
    (c : FlightMotionControl) (s : StateUpdate) (cur : MotionState)
    (hcur : c.currentState = some cur) :
    ∃ itp,
      (updateFlightState cosDeg mapCamera c s 0).currentInterpolation = some itp ∧
      itp.remainingFrames = 0 ∧
      (interpolateFrame (updateFlightState cosDeg mapCamera c s 0)).currentState =
        some itp.target ∧
      (interpolateFrame (updateFlightState cosDeg mapCamera c s 0)).currentInterpolation =
        none := by
  obtain ⟨hcs, hplan, -⟩ := updateFlightState_some cosDeg mapCamera c s 0 cur hcur
  have hf : framesOf 0 = 0 := by norm_num [framesOf, jsRound]
  obtain ⟨h1, h2⟩ := interpolateFrame_snap _ _ _ hplan hcs (le_of_eq hf)
  exact ⟨_, hplan, hf, h1, h2⟩

/-- Witness for zero_dt_update_snaps at a concrete control and observation. -/
theorem zero_dt_update_snaps_witness :
    ∃ itp,
      (updateFlightState cos1 mapCam0 (stateControl ms0)
        (latObs (1 / 1000)) 0).currentInterpolation = some itp ∧
      itp.remainingFrames = 0 ∧
      (interpolateFrame (updateFlightState cos1 mapCam0 (stateControl ms0)
        (latObs (1 / 1000)) 0)).currentState = some itp.target ∧
      (interpolateFrame (updateFlightState cos1 mapCam0 (stateControl ms0)
        (latObs (1 / 1000)) 0)).currentInterpolation = none :=
  zero_dt_update_snaps cos1 mapCam0 (stateControl ms0) (latObs (1 / 1000)) ms0 rfl

/-- Claim C2 (code bug): on every accepted update with a prior state and
prediction enabled, the source assigns _previousState from _currentState and
never overwrites _currentState before _updateMotionDerivatives runs, so the
derivative estimator compares a state with itself: the stored linear and
angular velocity estimates are identically zero, never the displacement
between the previous and the newly accepted positions divided by deltaTime. -/
theorem velocity_estimate_always_zero (cosDeg : ℚ → ℚ) (mapCamera : Position)
    (c : FlightMotionControl) (s : StateUpdate) (dt : ℚ) (cur : MotionState)
    (hcur : c.currentState = some cur) (hsp : c.shouldPredict = true)
    (hdt : 0 < dt) :
    (updateFlightState cosDeg mapCamera c s dt).velocity =
      { x := 0, y := 0, z := 0 } ∧
    (updateFlightState cosDeg mapCamera c s dt).angularVelocity =
      { heading := 0, pitch := 0, roll := 0 } := by
  simp only [updateFlightState, hcur, hsp, if_true]
  constructor <;>
    simp [updateMotionDerivatives, calculateShortestAngleDelta_self,
      Vec3.mk.injEq, AngularVelocity.mk.injEq]

/-- Witness for velocity_estimate_always_zero: a northward move of 0.001
degrees of latitude over one second stores a zero velocity estimate even
though the claimed estimate 0.001 times 110574.3 per second is nonzero. -/
theorem velocity_estimate_always_zero_witness :
    ((updateFlightState cos1 mapCam0 c2control (latObs (1 / 1000)) 1000).velocity =
      { x := 0, y := 0, z := 0 } ∧
    (updateFlightState cos1 mapCam0 c2control (latObs (1 / 1000)) 1000).angularVelocity =
      { heading := 0, pitch := 0, roll := 0 }) ∧
    (1 / 1000 : ℚ) * metersPerDegree / 1 ≠ 0 :=
  ⟨velocity_estimate_always_zero cos1 mapCam0 c2control (latObs (1 / 1000)) 1000
    ms0 rfl rfl (by norm_num), by norm_num [metersPerDegree]⟩

/-- Claim C3 (code bug): _updateCamera ends by invoking itself whenever the
predict flag is set, and nothing in the body clears that flag, so once
prediction is active a tick that reaches the camera update never completes:
for every finite recursion budget the fuel-bounded model runs out of fuel. -/
theorem updateCamera_diverges_while_predicting (t : ℚ) (fuel : ℕ)
    (c : FlightMotionControl) (hp : c.predict = true)
    (hcs : c.currentState.isSome = true) :
    updateCamera t fuel c = none := by
  induction fuel generalizing c with
  | zero => rfl
  | succ n ih =>
    have hstep : (updateCameraStep t c).predict = true := by
      unfold updateCameraStep
      split_ifs <;> exact hp
    have hstepcs : (updateCameraStep t c).currentState.isSome = true := by
      unfold updateCameraStep
      split_ifs <;> exact hcs
    have hnotnone : ¬ (updateCameraStep t c).currentState.isNone = true := by
      intro hn
      rw [Option.isNone_iff_eq_none] at hn
      rw [hn] at hstepcs
      exact Bool.false_ne_true hstepcs
    show (if (updateCameraStep t c).currentState.isNone then
        some (updateCameraStep t c)
      else if (updateCameraStep t c).predict then
        updateCamera t n (updateCameraStep t c)
      else some (updateCameraStep t c)) = none
    rw [if_neg hnotnone, if_pos hstep]
    exact ih _ hstep hstepcs

/-- Witness for updateCamera_diverges_while_predicting on a control with the
predict flag set and a recursion budget of 10. -/
theorem updateCamera_diverges_while_predicting_witness :
    c3control.predict = true ∧ c3control.currentState.isSome = true ∧
    updateCamera 16 10 c3control = none :=
  ⟨rfl, rfl, updateCamera_diverges_while_predicting 16 10 c3control rfl rfl⟩

/-- Claim C4 (counterexample): an update with a prior state at heading 90
that moves lat and lng but omits heading produces a plan whose target heading
is 90 — held at the previous heading, not inferred as the bearing of the
displacement. -/
theorem heading_held_counterexample :
    ((updateFlightState cos1 mapCam0 c4control
        (latLngObs (1 / 1000) (1 / 1000)) 50).currentInterpolation.map
      (fun i => i.target.attitude.heading)) = some 90 ∧ (1 / 1000 : ℚ) ≠ 0 := by
  constructor
  · norm_num [updateFlightState, targetOf, framesOf, deltasOf, jsRound,
      latLngObs, c4control, stateControl, initialControl, cos1, mapCam0]
  · norm_num

/-- Claim C4 (amended): whenever flightHeading is omitted on an update with a
prior state, the plan's target heading is held at the current state's
heading, whatever lat and lng the observation supplies. -/
theorem heading_held_when_omitted (cosDeg : ℚ → ℚ) (mapCamera : Position)
    (c : FlightMotionControl) (s : StateUpdate) (dt : ℚ) (cur : MotionState)
    (hcur : c.currentState = some cur) (hh : s.flightHeading = none) :
    ∃ itp,
      (updateFlightState cosDeg mapCamera c s dt).currentInterpolation = some itp ∧
      itp.target.attitude.heading = cur.attitude.heading := by
  obtain ⟨-, hplan, -⟩ := updateFlightState_some cosDeg mapCamera c s dt cur hcur
  refine ⟨_, hplan, ?_⟩
  show (targetOf cur s).attitude.heading = cur.attitude.heading
  simp [targetOf, hh]

/-- Witness for heading_held_when_omitted at the heading-90 control. -/
theorem heading_held_when_omitted_witness :
    ∃ itp,
      (updateFlightState cos1 mapCam0 c4control
        (latLngObs (1 / 1000) (1 / 1000)) 50).currentInterpolation = some itp ∧
      itp.target.attitude.heading = 90 :=
  heading_held_when_omitted cos1 mapCam0 c4control
    (latLngObs (1 / 1000) (1 / 1000)) 50 _ rfl rfl

/-- Claim C5 (counterexample): a one-frame plan from longitude 179 to
longitude -179 leaves the current longitude at 181 after consuming exactly
remainingFrames ticks — numerically different from the target longitude
-179, although longitude is not in the claim's heading/roll modulo
carve-out. -/
theorem interpolation_antimeridian_counterexample :
    ((updateFlightState cos1 mapCam0 antiControl
        (latLngObs 0 (-179)) 50).currentInterpolation.map
      (fun i => (i.remainingFrames, i.target.position.lng))) = some (1, -179) ∧
    ((interpolateFrame (updateFlightState cos1 mapCam0 antiControl
        (latLngObs 0 (-179)) 50)).currentState.map
      (fun st => st.position.lng)) = some 181 ∧
    (181 : ℚ) ≠ -179 := by
  refine ⟨?_, ?_, by norm_num⟩
  · norm_num [updateFlightState, targetOf, framesOf, deltasOf, jsRound,
      latLngObs, antiControl, stateControl, initialControl, cos1, mapCam0]
  · norm_num [updateFlightState, targetOf, framesOf, deltasOf, jsRound,
      interpolateFrame, calculateShortestLongitudeDelta,
      calculateShortestAngleDelta, wrap360, jsMod360, truncQ, latLngObs,
      antiControl, stateControl, initialControl, cos1, mapCam0]

/-- Witness for interpolation_settles: the one-frame plan itpW settles on its
target after one tick, and the following tick snaps and clears the plan. -/
theorem interpolation_settles_witness :
    ∃ st,
      (interpolateFrame^[itpW.remainingFrames.toNat]
          (updateFlightState cos1 mapCam0 (stateControl ms0)
            (latObs (1 / 1000)) 50)).currentState = some st ∧
      st.position.lat = itpW.target.position.lat ∧
      (∃ m : ℤ, st.position.lng = itpW.target.position.lng + 360 * (m : ℚ)) ∧
      st.position.altitude = itpW.target.position.altitude ∧
      wrap360 st.attitude.heading = wrap360 itpW.target.attitude.heading ∧
      st.attitude.pitch = itpW.target.attitude.pitch ∧
      wrap360 st.attitude.roll = wrap360 itpW.target.attitude.roll ∧
      st.velocity.groundSpeed = itpW.target.velocity.groundSpeed ∧
      st.velocity.verticalSpeed = itpW.target.velocity.verticalSpeed ∧
      (interpolateFrame (interpolateFrame^[itpW.remainingFrames.toNat]
          (updateFlightState cos1 mapCam0 (stateControl ms0)
            (latObs (1 / 1000)) 50))).currentState = some itpW.target ∧
      (interpolateFrame (interpolateFrame^[itpW.remainingFrames.toNat]
          (updateFlightState cos1 mapCam0 (stateControl ms0)
            (latObs (1 / 1000)) 50))).currentInterpolation = none :=
  interpolation_settles cos1 mapCam0 (stateControl ms0) (latObs (1 / 1000)) 50
    ms0 itpW rfl
    ((updateFlightState_some cos1 mapCam0 (stateControl ms0)
      (latObs (1 / 1000)) 50 ms0 rfl).2.1)
    (by norm_num [itpW, framesOf, jsRound])

/-- Claim C6 (counterexample): a prediction step adds the roll increment
without wrapping: from roll 350 with a roll rate of 20 degrees per second
over one second the produced MotionState has roll 370, outside the interval
from 0 to 360. -/
theorem prediction_roll_counterexample :
    (predictCurrentState cos1 { x := 0, y := 0, z := 0 }
        { heading := 0, pitch := 0, roll := 20 }
        { position := { lat := 0, lng := 0, altitude := 1000 }
          attitude := { heading := 10, pitch := 0, roll := 350 }
          velocity := { groundSpeed := 0, verticalSpeed := 0 } }
        1).attitude.roll = 370 ∧
    ¬ ((370 : ℚ) < 360) := by
  constructor
  · norm_num [predictCurrentState]
  · norm_num

/-- Claim C6 (amended): a prediction step wraps heading into the interval
from 0 to 360 by the source's wrap pattern (whenever the wrapped argument is
nonnegative, in particular from any in-range heading and a rate increment of
magnitude at most 360), but adds the roll increment unwrapped. -/
theorem prediction_wraps_heading_not_roll (cosDeg : ℚ → ℚ) (v : Vec3)
    (av : AngularVelocity) (st : MotionState) (dt : ℚ)
    (hh : -360 ≤ st.attitude.heading + av.heading * dt) :
    (0 ≤ (predictCurrentState cosDeg v av st dt).attitude.heading ∧
      (predictCurrentState cosDeg v av st dt).attitude.heading < 360) ∧
    (predictCurrentState cosDeg v av st dt).attitude.roll =
      st.attitude.roll + av.roll * dt := by
  refine ⟨?_, rfl⟩
  show 0 ≤ jsMod360 (st.attitude.heading + av.heading * dt + 360) ∧
    jsMod360 (st.attitude.heading + av.heading * dt + 360) < 360
  exact jsMod360_nonneg_mem _ (by linarith)

/-- Witness for prediction_wraps_heading_not_roll at heading rate 5 and roll
rate 7 over two seconds from the level state ms0. -/
theorem prediction_wraps_heading_not_roll_witness :
    (0 ≤ (predictCurrentState cos1 { x := 0, y := 0, z := 0 }
        { heading := 5, pitch := 0, roll := 7 } ms0 2).attitude.heading ∧
      (predictCurrentState cos1 { x := 0, y := 0, z := 0 }
        { heading := 5, pitch := 0, roll := 7 } ms0 2).attitude.heading < 360) ∧
    (predictCurrentState cos1 { x := 0, y := 0, z := 0 }
        { heading := 5, pitch := 0, roll := 7 } ms0 2).attitude.roll =
      ms0.attitude.roll + 7 * 2 :=
  prediction_wraps_heading_not_roll cos1 { x := 0, y := 0, z := 0 }
    { heading := 5, pitch := 0, roll := 7 } ms0 2 (by norm_num [ms0])

/-- Claim C7 (counterexample): with prediction active, a current state and a
previous state present but no live plan, a scheduled tick renders nothing at
all — _interpolateFrame returns before reaching the camera update — so the
rendered viewpoint is not independent of whether a plan is live. -/
theorem tick_without_plan_counterexample :
    tickRenderedState cos1 16 c7control = none ∧ c7control.predict = true ∧
    c7control.currentState.isSome = true :=
  ⟨rfl, rfl, rfl⟩

/-- Claim C7 (amended): when prediction is active, a previous state exists
and a plan is live, the tick hands camera placement the prediction of the
freshly interpolated current state — prediction, not the plan, chooses the
rendered state — while a tick with no live plan renders nothing. -/
theorem prediction_governs_render (cosDeg : ℚ → ℚ) (t : ℚ)
    (c : FlightMotionControl) (itp : MovementInterpolation) (cur p : MotionState)
    (hplan : c.currentInterpolation = some itp) (hcur : c.currentState = some cur)
    (hp : c.predict = true) (hprev : c.previousState = some p) :
    ∃ st, (interpolateFrame c).currentState = some st ∧
      tickRenderedState cosDeg t c = some
        (predictCurrentState cosDeg c.velocity c.angularVelocity st
          (if c.deltaIsCalculated then c.currentDeltaTimeForPrediction else t)) := by
  have hsome : ∃ st, (interpolateFrame c).currentState = some st := by
    rcases le_or_lt itp.remainingFrames 0 with hle | hlt
    · exact ⟨_, (interpolateFrame_snap c itp cur hplan hcur hle).1⟩
    · exact ⟨_, (interpolateFrame_step c itp cur hplan hcur hlt).1⟩
  obtain ⟨st, hst⟩ := hsome
  obtain ⟨hpredP, hprevP, hvelP, havP, hdicP, hdtP, -⟩ := interpolateFrame_preserves c
  refine ⟨st, hst, ?_⟩
  simp only [tickRenderedState, hplan, hcur, hpredP, hprevP, hvelP, havP, hdicP,
    hdtP, hp, hprev, hst, Option.isSome_some, Bool.and_self, if_true,
    Option.map_some']

/-- Witness for prediction_governs_render on the predicting control carrying
the trivial one-frame plan plan0. -/
theorem prediction_governs_render_witness :
    ∃ st, (interpolateFrame c7planControl).currentState = some st ∧
      tickRenderedState cos1 16 c7planControl = some
        (predictCurrentState cos1 c7planControl.velocity
          c7planControl.angularVelocity st
          (if c7planControl.deltaIsCalculated then
            c7planControl.currentDeltaTimeForPrediction else 16)) :=
  prediction_governs_render cos1 16 c7planControl plan0 ms0 ms0 rfl rfl rfl rfl

/-- Claim C8 (counterexample): getState copies only the top level — the
returned object carries the engine's own position reference, so assigning a
latitude of 99 through the returned object changes the latitude the engine
reads through its internal state from 10 to 99. -/
theorem getState_shared_counterexample :
    RefModel.getState (some RefModel.internalRef) = some RefModel.internalRef ∧
    RefModel.readLat
      (RefModel.writeLat RefModel.heap0
        ((RefModel.getState (some RefModel.internalRef)).getD
          RefModel.internalRef).position 99)
      RefModel.internalRef = 99 ∧
    RefModel.readLat RefModel.heap0 RefModel.internalRef = 10 ∧
    (99 : ℚ) ≠ 10 := by
  refine ⟨rfl, ?_, rfl, by norm_num⟩
  norm_num [RefModel.getState, RefModel.readLat, RefModel.writeLat,
    RefModel.heap0, RefModel.internalRef]

/-- Claim C8 (amended): getState returns null exactly when no current state
exists; otherwise it returns a shallow copy — a fresh top-level object whose
position, attitude and velocity fields are the engine's own references — so
a write through the copy's nested position record is visible through the
engine's internal state. -/
theorem getState_shallow (cur : Option RefModel.MotionStateRef) :
    (RefModel.getState cur = none ↔ cur = none) ∧
    ∀ r, cur = some r → RefModel.getState cur = some r ∧
      ∀ h v, RefModel.readLat (RefModel.writeLat h r.position v) r = v := by
  constructor
  · cases cur <;> simp [RefModel.getState]
  · intro r hr
    subst hr
    refine ⟨rfl, ?_⟩
    intro h v
    simp [RefModel.readLat, RefModel.writeLat]

/-- Witness for getState_shallow at the concrete internal state of
getState_shared_counterexample. -/
theorem getState_shallow_witness :
    RefModel.getState (some RefModel.internalRef) = some RefModel.internalRef ∧
    RefModel.readLat
      (RefModel.writeLat RefModel.heap0 RefModel.internalRef.position 99)
      RefModel.internalRef = 99 :=
  ⟨((getState_shallow (some RefModel.internalRef)).2 RefModel.internalRef rfl).1,
    ((getState_shallow (some RefModel.internalRef)).2 RefModel.internalRef rfl).2
      RefModel.heap0 99⟩

/-- Claim C10 (confirmed): the chase offset leaves the lateral component
unchanged for every speed; at ground speed 0 it equals the base offset
exactly; at ground speed 100 the longitudinal component is 1.5 times and the
vertical 1.3 times the base; and for every ground speed of at least 100 the
scaling saturates at those same factors because the speed factor
min(speed/100, 1) is clamped to 1. -/
theorem chase_offset_scaling (c : FlightMotionControl) (cur : MotionState)
    (baseOffset : Vec3) (hcur : c.currentState = some cur) :
    (calculateChaseOffset c baseOffset).x = baseOffset.x ∧
    (cur.velocity.groundSpeed = 0 →
      calculateChaseOffset c baseOffset = baseOffset) ∧
    (cur.velocity.groundSpeed = 100 →
      calculateChaseOffset c baseOffset =
        { x := baseOffset.x, y := baseOffset.y * (3 / 2)
          z := baseOffset.z * (13 / 10) }) ∧
    (100 ≤ cur.velocity.groundSpeed →
      calculateChaseOffset c baseOffset =
        { x := baseOffset.x, y := baseOffset.y * (3 / 2)
          z := baseOffset.z * (13 / 10) }) := by
  have hmin : 100 ≤ cur.velocity.groundSpeed →
      jsMin (cur.velocity.groundSpeed / 100) 1 = 1 := by
    intro hs
    unfold jsMin
    split_ifs with h
    · have h1 : (1 : ℚ) ≤ cur.velocity.groundSpeed / 100 := by
        rw [le_div_iff (by norm_num : (0 : ℚ) < 100)]
        linarith
      linarith
    · rfl
  simp only [calculateChaseOffset, hcur]
  refine ⟨trivial, ?_, ?_, ?_⟩
  · intro h0
    rw [h0]
    have hz : jsMin ((0 : ℚ) / 100) 1 = 0 := by norm_num [jsMin]
    rw [hz]
    cases baseOffset
    simp only [Vec3.mk.injEq]
    exact ⟨trivial, by ring, by ring⟩
  · intro h100
    rw [h100]
    have ho : jsMin ((100 : ℚ) / 100) 1 = 1 := by norm_num [jsMin]
    rw [ho]
    cases baseOffset
    simp only [Vec3.mk.injEq]
    exact ⟨trivial, by ring, by ring⟩
  · intro hs
    rw [hmin hs]
    cases baseOffset
    simp only [Vec3.mk.injEq]
    exact ⟨trivial, by ring, by ring⟩

/-- Witness for chase_offset_scaling at ground speed 100 and the default
chase base offset. -/
theorem chase_offset_scaling_witness :
    (calculateChaseOffset (stateControl (msSpeed 100))
      { x := 0, y := -30, z := 10 }).x = ({ x := 0, y := -30, z := 10 } : Vec3).x ∧
    ((msSpeed 100).velocity.groundSpeed = 0 →
      calculateChaseOffset (stateControl (msSpeed 100))
        { x := 0, y := -30, z := 10 } = { x := 0, y := -30, z := 10 }) ∧
    ((msSpeed 100).velocity.groundSpeed = 100 →
      calculateChaseOffset (stateControl (msSpeed 100))
        { x := 0, y := -30, z := 10 } =
        { x := ({ x := 0, y := -30, z := 10 } : Vec3).x
          y := ({ x := 0, y := -30, z := 10 } : Vec3).y * (3 / 2)
          z := ({ x := 0, y := -30, z := 10 } : Vec3).z * (13 / 10) }) ∧
    (100 ≤ (msSpeed 100).velocity.groundSpeed →
      calculateChaseOffset (stateControl (msSpeed 100))
        { x := 0, y := -30, z := 10 } =
        { x := ({ x := 0, y := -30, z := 10 } : Vec3).x
          y := ({ x := 0, y := -30, z := 10 } : Vec3).y * (3 / 2)
          z := ({ x := 0, y := -30, z := 10 } : Vec3).z * (13 / 10) }) :=
  chase_offset_scaling (stateControl (msSpeed 100)) (msSpeed 100)
    { x := 0, y := -30, z := 10 } rfl

end FlightSim

